import Mathlib

/-!
Verification of the ngrx-json-api service facade (`src/services.ts`).

The facade is a thin layer over a dispatch-based state container: its public
methods either dispatch actions into the store or read the latest store
snapshot. We embed the facade shallowly:

* every dispatching method becomes a pure function returning the list of
  actions it dispatches during the call;
* `findOne`/`findMany` additionally return the (in-place mutated) caller
  query, the per-emission mapping applied to the query's result stream, and
  the actions dispatched by the returned handle's `unsubscribe`;
* the synchronous snapshot getters become pure functions of the store
  snapshot, with JavaScript object indexing modelled by association-list
  lookup and `null`/absent modelled by `Option`.

The reducers, selectors and interfaces of the repository are not under
`src/`; where a claim depends on them (query deregistration, `upsertPersisted`,
the pending-change tracker) the corresponding definition is modelled from the
spec and marked as such in its doc comment.
-/

namespace NgrxJsonApi

/-- JSON:API resource identifier: `{ type: string, id: string }`. -/
structure ResourceIdentifier where
  type : String
  id : String
deriving DecidableEq, Repr

/-- A resource: identifier fields plus attributes and relationship references.
Attribute values are modelled as opaque strings; relationships store
identifier references only, as in the spec's data model. -/
structure Resource where
  type : String
  id : String
  attributes : List (String × String) := []
  relationships : List (String × List ResourceIdentifier) := []
deriving DecidableEq, Repr

/-- The identifier of a resource (its `type`/`id` fields). -/
def resourceIdentifierOf (r : Resource) : ResourceIdentifier :=
  { type := r.type, id := r.id }

/-- Store entry for one identifier, as accessed by `services.ts`:
`snapshot.data[type][id].resource` (current state) and
`snapshot.data[type][id].persistedResource` (last server-confirmed state,
absent if never fetched/committed). -/
structure ResourceStoreData where
  resource : Resource
  persistedResource : Option Resource
deriving DecidableEq, Repr

/-- The store snapshot shape used by the facade: `data` maps a resource type
to a map from id to the entry. JavaScript objects are modelled as
association lists. -/
structure NgrxJsonApiStore where
  data : List (String × List (String × ResourceStoreData)) := []
deriving DecidableEq, Repr

/-- A query as passed to `findOne`/`findMany`: its id, its `queryType`
string, and its remaining filter parameters (type/id target and opaque
params), which the facade never touches. -/
structure ResourceQuery where
  queryId : String
  queryType : String
  type : Option String := none
  id : Option String := none
  params : List (String × String) := []
deriving DecidableEq, Repr

/-- Action payload: `findInternal` builds `{ query: query }`; the V1 CRUD
methods forward a caller-supplied payload unchanged (its `jsonApiData`
document is opaque here). -/
structure Payload where
  query : Option ResourceQuery := none
  jsonApiData : Option String := none
deriving DecidableEq, Repr

/-- The actions dispatched by `services.ts` (from `./actions`). -/
inductive Action where
  | apiCreateInit (payload : Payload)
  | apiReadInit (payload : Payload)
  | apiUpdateInit (payload : Payload)
  | apiDeleteInit (payload : Payload)
  | deleteFromState (payload : Payload)
  | postStoreResource (resource : Resource)
  | patchStoreResource (resource : Resource)
  | deleteStoreResource (identifier : ResourceIdentifier)
  | apiCommitInit (storeLocation : String)
  | removeQuery (queryId : String)
deriving DecidableEq, Repr

/-- Remote-API intents: the `Api...InitAction`s consumed by the effect layer
that contacts the remote JSON API endpoint. -/
def isRemoteIntent : Action → Bool
  | Action.apiCreateInit _ => true
  | Action.apiReadInit _ => true
  | Action.apiUpdateInit _ => true
  | Action.apiDeleteInit _ => true
  | Action.apiCommitInit _ => true
  | _ => false

/-- Cache-mutating actions: the store-level actions handled directly by the
reducer without remote contact. -/
def isStoreMutation : Action → Bool
  | Action.deleteFromState _ => true
  | Action.postStoreResource _ => true
  | Action.patchStoreResource _ => true
  | Action.deleteStoreResource _ => true
  | Action.removeQuery _ => true
  | _ => false

/-- Association-list lookup, modelling JavaScript object indexing `obj[k]`
(absent key is `undefined`, modelled `none`). -/
def assocLookup {κ α : Type} [DecidableEq κ] : List (κ × α) → κ → Option α
  | [], _ => none
  | (k0, v) :: rest, k => if k0 = k then some v else assocLookup rest k

/-- Association-list key removal, modelling `delete obj[k]`. -/
def assocRemove {κ α : Type} [DecidableEq κ] : List (κ × α) → κ → List (κ × α)
  | [], _ => []
  | (k0, v) :: rest, k =>
      if k0 = k then assocRemove rest k else (k0, v) :: assocRemove rest k

/-! ## The V1 facade `NgrxJsonApiService`

Each CRUD method dispatches exactly one action carrying the given payload;
we model a method as the list of actions it dispatches. -/

namespace NgrxJsonApiService

/-- `create(payload)`: dispatches `ApiCreateInitAction(payload)`. -/
def create (payload : Payload) : List Action :=
  [Action.apiCreateInit payload]

/-- `read(payload)`: dispatches `ApiReadInitAction(payload)`. -/
def read (payload : Payload) : List Action :=
  [Action.apiReadInit payload]

/-- `update(payload)`: dispatches `ApiUpdateInitAction(payload)`. -/
def update (payload : Payload) : List Action :=
  [Action.apiUpdateInit payload]

/-- `delete(payload)`: dispatches `ApiDeleteInitAction(payload)`. -/
def delete (payload : Payload) : List Action :=
  [Action.apiDeleteInit payload]

/-- `deleteFromState(payload)`: dispatches `DeleteFromStateAction(payload)`. -/
def deleteFromState (payload : Payload) : List Action :=
  [Action.deleteFromState payload]

end NgrxJsonApiService

/-! ## The V2 facade `NgrxJsonApiServiceV2` -/

/-- A thrown JavaScript error (`throw new Error(message)`). -/
inductive JsError where
  | genericError (message : String)
deriving DecidableEq, Repr

/-- The spec's name for the error `findOne` throws when a getOne query
matches more than one resource; in the code it is
`new Error("Unique result expected")`. -/
def AmbiguousResultError : JsError :=
  JsError.genericError "Unique result expected"

namespace NgrxJsonApiServiceV2

/-- `removeQuery(queryId)`: dispatches `RemoveQueryAction(queryId)`. -/
def removeQuery (queryId : String) : List Action :=
  [Action.removeQuery queryId]

/-- `findInternal(query)`: wraps the query in a payload and dispatches
`ApiReadInitAction`. -/
def findInternal (query : ResourceQuery) : List Action :=
  [Action.apiReadInit { query := some query }]

/-- The mapping `findOne` applies to each emission `it` of
`selectResults(queryId)`: empty → `null`; singleton → `it[0]`; otherwise
`throw new Error("Unique result expected")`. -/
def findOneMapEmission (it : List Resource) : Except JsError (Option Resource) :=
  if it.length = 0 then Except.ok none
  else if it.length = 1 then Except.ok it.head?
  else Except.error (JsError.genericError "Unique result expected")

/-- Observable effect of one `findOne` call: the caller's query after the
in-place `query.queryType = "getOne"` assignment, the actions dispatched
during the call, the per-emission result mapping of the returned handle,
and the actions dispatched by the handle's `unsubscribe`. -/
structure FindOneCall where
  registeredQuery : ResourceQuery
  dispatched : List Action
  deliver : List Resource → Except JsError (Option Resource)
  unsubscribeActions : List Action

/-- `findOne(query)`: sets `query.queryType = "getOne"` in place, calls
`findInternal(query)`, and returns a handle whose `results` maps each
emission through `findOneMapEmission` and whose `unsubscribe` calls
`removeQuery(query.queryId)`. -/
def findOne (query : ResourceQuery) : FindOneCall :=
  let q : ResourceQuery := { query with queryType := "getOne" }
  { registeredQuery := q
    dispatched := findInternal q
    deliver := findOneMapEmission
    unsubscribeActions := removeQuery q.queryId }

/-- Observable effect of one `findMany` call, analogous to `FindOneCall`;
the handle's `results` is `selectResults(queryId)` unmapped. -/
structure FindManyCall where
  registeredQuery : ResourceQuery
  dispatched : List Action
  deliver : List Resource → List Resource
  unsubscribeActions : List Action

/-- `findMany(query)`: sets `query.queryType = "getMany"` in place, calls
`findInternal(query)`, and returns a handle delivering emissions unchanged,
with `unsubscribe` calling `removeQuery(query.queryId)`. -/
def findMany (query : ResourceQuery) : FindManyCall :=
  let q : ResourceQuery := { query with queryType := "getMany" }
  { registeredQuery := q
    dispatched := findInternal q
    deliver := fun it => it
    unsubscribeActions := removeQuery q.queryId }

/-- `snapshot.data[identifier.type] && snapshot.data[identifier.type][identifier.id]`:
the entry for an identifier in the store snapshot, if present. -/
def lookupEntry (snapshot : NgrxJsonApiStore) (identifier : ResourceIdentifier) :
    Option ResourceStoreData :=
  match assocLookup snapshot.data identifier.type with
  | some byId => assocLookup byId identifier.id
  | none => none

/-- `getResourceSnapshot(identifier)`: the entry's `resource` (current
state) when the identifier is present in the snapshot, else `null`. -/
def getResourceSnapshot (snapshot : NgrxJsonApiStore)
    (identifier : ResourceIdentifier) : Option Resource :=
  match lookupEntry snapshot identifier with
  | some entry => some entry.resource
  | none => none

/-- `getPersistedResourceSnapshot(identifier)`: the entry's
`persistedResource` when the identifier is present in the snapshot, else
`null`. -/
def getPersistedResourceSnapshot (snapshot : NgrxJsonApiStore)
    (identifier : ResourceIdentifier) : Option Resource :=
  match lookupEntry snapshot identifier with
  | some entry => entry.persistedResource
  | none => none

/-- `patchResource(resource)`: dispatches `PatchStoreResourceAction(resource)`. -/
def patchResource (resource : Resource) : List Action :=
  [Action.patchStoreResource resource]

/-- `postResource(resource)`: dispatches `PostStoreResourceAction(resource)`. -/
def postResource (resource : Resource) : List Action :=
  [Action.postStoreResource resource]

/-- `deleteResource(resourceId)`: dispatches `DeleteStoreResourceAction(resourceId)`. -/
def deleteResource (resourceId : ResourceIdentifier) : List Action :=
  [Action.deleteStoreResource resourceId]

/-- `commit()`: dispatches `ApiCommitInitAction(storeLocation)`. -/
def commit (storeLocation : String) : List Action :=
  [Action.apiCommitInit storeLocation]

end NgrxJsonApiServiceV2

/-! ## Spec-modelled components

The reducers backing `RemoveQueryAction`, `upsertPersisted` and the
pending-change tracker are code of this repository that is not under `src/`
(only their dispatch sites in `services.ts` are). They are modelled from the
spec below, each marked in its doc comment. -/

/-- Modelled from the spec: the QueryRegistry state handled by the
`RemoveQueryAction` reducer, which is not under `src/`. Active queries keyed
by query id. -/
abbrev QueryRegistry := List (String × ResourceQuery)

/-- Modelled from the spec: `removeQuery(queryId)` "deregisters the query"
and "must be callable multiple times safely (idempotent no-op if already
removed)"; the reducer is not under `src/`. -/
def removeQueryFromRegistry (queries : QueryRegistry) (queryId : String) :
    QueryRegistry :=
  assocRemove queries queryId

/-- Modelled from the spec: recomputation delivers results only to queries
registered in the QueryRegistry ("subsequent mutations perform no work for
it"); the notification mechanism is not under `src/`. -/
def deliversTo (queries : QueryRegistry) (queryId : String) : Bool :=
  (assocLookup queries queryId).isSome

/-- Modelled from the spec: a pending change record, one of
`Create(resource)`, `Patch(identifier, partial attributes/relationships)`,
`Delete(identifier)`; the tracker implementation is not under `src/`. -/
inductive PendingChangeRecord where
  | create (resource : Resource)
  | patch (identifier : ResourceIdentifier)
      (attributes : List (String × String))
      (relationships : List (String × List ResourceIdentifier))
  | delete (identifier : ResourceIdentifier)
deriving DecidableEq, Repr

/-- Modelled from the spec: the PendingChangeTracker mapping
identifier → PendingChangeRecord; not under `src/`. -/
abbrev PendingChangeTracker := List (ResourceIdentifier × PendingChangeRecord)

/-- At most one pending record per identifier: the tracker's keys are
pairwise distinct. -/
def atMostOnePerIdentifier (t : PendingChangeTracker) : Prop :=
  (t.map Prod.fst).Nodup

instance (t : PendingChangeTracker) : Decidable (atMostOnePerIdentifier t) :=
  inferInstanceAs (Decidable ((t.map Prod.fst).Nodup))

/-- Merge partial fields into existing fields: keys of `upd` override
`base`, other keys keep their base value. -/
def mergeFields {α : Type} (base upd : List (String × α)) : List (String × α) :=
  (base.filter (fun kv => (assocLookup upd kv.1).isNone)) ++ upd

/-- Apply a partial patch (attributes/relationships) to a resource's draft. -/
def applyPatchToResource (r : Resource) (attrs : List (String × String))
    (rels : List (String × List ResourceIdentifier)) : Resource :=
  { r with
    attributes := mergeFields r.attributes attrs
    relationships := mergeFields r.relationships rels }

/-- Modelled from the spec: `stageCreate(resource)` records a pending Create
for the resource's identifier, keeping at most one record per identifier;
not under `src/`. -/
def stageCreate (t : PendingChangeTracker) (r : Resource) : PendingChangeTracker :=
  (resourceIdentifierOf r, PendingChangeRecord.create r) ::
    assocRemove t (resourceIdentifierOf r)

/-- Modelled from the spec: `stagePatch(identifier, partialFields)`; "a later
Patch merges into an existing pending Create/Patch rather than creating a
duplicate". A Patch of an identifier whose pending record is a Delete is
left as the Delete (the spec does not constrain this case). Not under
`src/`. -/
def stagePatch (t : PendingChangeTracker) (key : ResourceIdentifier)
    (attrs : List (String × String))
    (rels : List (String × List ResourceIdentifier)) : PendingChangeTracker :=
  match assocLookup t key with
  | some (PendingChangeRecord.create r) =>
      (key, PendingChangeRecord.create (applyPatchToResource r attrs rels)) ::
        assocRemove t key
  | some (PendingChangeRecord.patch _ attrs0 rels0) =>
      (key, PendingChangeRecord.patch key (mergeFields attrs0 attrs)
        (mergeFields rels0 rels)) :: assocRemove t key
  | some (PendingChangeRecord.delete _) => t
  | none => (key, PendingChangeRecord.patch key attrs rels) :: t

/-- Modelled from the spec: `stageDelete(identifier)`; "a Delete supersedes
and discards any prior Create/Patch for the same identifier (except a Delete
of a not-yet-persisted Create removes the resource entirely rather than
queuing a delete request)". Not under `src/`. -/
def stageDelete (t : PendingChangeTracker) (key : ResourceIdentifier) :
    PendingChangeTracker :=
  match assocLookup t key with
  | some (PendingChangeRecord.create _) => assocRemove t key
  | some _ => (key, PendingChangeRecord.delete key) :: assocRemove t key
  | none => (key, PendingChangeRecord.delete key) :: t

/-- Modelled from the spec: ResourceStore state for `upsertPersisted` — per
identifier an entry holding `persisted` and `current`, plus the pending
tracker; the reducer is not under `src/`. -/
structure ModResourceStore where
  entries : List (ResourceIdentifier × ResourceStoreData) := []
  pending : PendingChangeTracker := []
deriving DecidableEq, Repr

/-- Modelled from the spec: `upsertPersisted(resource)` "inserts or replaces
the persisted state for the resource's identifier; if no pending local edit
exists for that identifier, also sets current = persisted"; the reducer is
not under `src/`. -/
def upsertPersisted (s : ModResourceStore) (r : Resource) : ModResourceStore :=
  let key := resourceIdentifierOf r
  let newEntry : ResourceStoreData :=
    match assocLookup s.entries key, assocLookup s.pending key with
    | some entry, some _ => { resource := entry.resource, persistedResource := some r }
    | some _, none => { resource := r, persistedResource := some r }
    | none, _ => { resource := r, persistedResource := some r }
  { s with entries := (key, newEntry) :: assocRemove s.entries key }

/-- Modelled from the spec: `get(identifier)` returns the `current` state or
absent. -/
def modGet (s : ModResourceStore) (key : ResourceIdentifier) : Option Resource :=
  match assocLookup s.entries key with
  | some entry => some entry.resource
  | none => none

/-- Modelled from the spec: `getPersisted(identifier)` returns the
`persisted` state or absent. -/
def modGetPersisted (s : ModResourceStore) (key : ResourceIdentifier) :
    Option Resource :=
  match assocLookup s.entries key with
  | some entry => entry.persistedResource
  | none => none

/-! ## Helper lemmas on association lists -/

theorem assocLookup_assocRemove_self {κ α : Type} [DecidableEq κ]
    (l : List (κ × α)) (k : κ) : assocLookup (assocRemove l k) k = none := by
  induction l with
  | nil => rfl
  | cons kv rest ih =>
    obtain ⟨k0, v⟩ := kv
    by_cases h : k0 = k
    · simp [assocRemove, h, ih]
    · simp [assocRemove, assocLookup, h, ih]

theorem assocLookup_assocRemove_ne {κ α : Type} [DecidableEq κ]
    (l : List (κ × α)) (k k0 : κ) (h : k0 ≠ k) :
    assocLookup (assocRemove l k) k0 = assocLookup l k0 := by
  induction l with
  | nil => rfl
  | cons kv rest ih =>
    obtain ⟨k1, v⟩ := kv
    by_cases h1 : k1 = k
    · subst h1
      have h2 : k1 ≠ k0 := fun he => h (he ▸ rfl)
      simp [assocRemove, assocLookup, h2, ih]
    · simp only [assocRemove, if_neg h1, assocLookup]
      by_cases h2 : k1 = k0
      · simp [h2]
      · simp [h2, ih]

theorem assocRemove_idem {κ α : Type} [DecidableEq κ]
    (l : List (κ × α)) (k : κ) :
    assocRemove (assocRemove l k) k = assocRemove l k := by
  induction l with
  | nil => rfl
  | cons kv rest ih =>
    obtain ⟨k0, v⟩ := kv
    by_cases h : k0 = k
    · simp [assocRemove, h, ih]
    · simp [assocRemove, h, ih]

theorem notMem_keys_assocRemove {κ α : Type} [DecidableEq κ]
    (l : List (κ × α)) (k : κ) :
    k ∉ ((assocRemove l k).map Prod.fst) := by
  induction l with
  | nil => simp [assocRemove]
  | cons kv rest ih =>
    obtain ⟨k0, v⟩ := kv
    by_cases h : k0 = k
    · simpa [assocRemove, h] using ih
    · simp only [assocRemove, if_neg h, List.map_cons, List.mem_cons]
      rintro (h1 | h1)
      · exact h h1.symm
      · exact ih h1

theorem mem_of_mem_assocRemove {κ α : Type} [DecidableEq κ]
    (l : List (κ × α)) (k : κ) (kv : κ × α)
    (h : kv ∈ assocRemove l k) : kv ∈ l := by
  induction l with
  | nil => simp [assocRemove] at h
  | cons kv0 rest ih =>
    obtain ⟨k0, v⟩ := kv0
    by_cases h0 : k0 = k
    · simp only [assocRemove, if_pos h0] at h
      exact List.mem_cons_of_mem _ (ih h)
    · simp only [assocRemove, if_neg h0, List.mem_cons] at h
      rcases h with h1 | h1
      · exact h1 ▸ List.mem_cons_self _ _
      · exact List.mem_cons_of_mem _ (ih h1)

theorem nodup_keys_assocRemove {κ α : Type} [DecidableEq κ]
    (l : List (κ × α)) (k : κ) (h : (l.map Prod.fst).Nodup) :
    ((assocRemove l k).map Prod.fst).Nodup := by
  induction l with
  | nil => simp [assocRemove]
  | cons kv rest ih =>
    obtain ⟨k0, v⟩ := kv
    simp only [List.map_cons, List.nodup_cons] at h
    by_cases h1 : k0 = k
    · simp only [assocRemove, if_pos h1]
      exact ih h.2
    · simp only [assocRemove, if_neg h1, List.map_cons, List.nodup_cons]
      refine ⟨fun hmem => ?_, ih h.2⟩
      obtain ⟨kv1, hkv1, he⟩ := List.mem_map.mp hmem
      have hmem2 : k0 ∈ rest.map Prod.fst :=
        List.mem_map.mpr ⟨kv1, mem_of_mem_assocRemove rest k kv1 hkv1, he⟩
      exact h.1 hmem2

theorem notMem_keys_of_assocLookup_none {κ α : Type} [DecidableEq κ]
    (l : List (κ × α)) (k : κ) (h : assocLookup l k = none) :
    k ∉ (l.map Prod.fst) := by
  induction l with
  | nil => simp
  | cons kv rest ih =>
    obtain ⟨k0, v⟩ := kv
    by_cases h0 : k0 = k
    · simp [assocLookup, h0] at h
    · simp only [assocLookup, if_neg h0] at h
      simp only [List.map_cons, List.mem_cons]
      rintro (h1 | h1)
      · exact h0 h1.symm
      · exact ih h h1

/-! ## Concrete sample data for witnesses -/

/-- The current (locally edited) state of the sample article. -/
def articleCurrent : Resource :=
  { type := "article", id := "1", attributes := [("title", "local draft")] }

/-- The persisted (server-confirmed) state of the sample article. -/
def articlePersisted : Resource :=
  { type := "article", id := "1", attributes := [("title", "server copy")] }

/-- A second article, for the ambiguous-result case. -/
def articleTwo : Resource := { type := "article", id := "2" }

/-- Store entry whose current state differs from its persisted state. -/
def sampleEntry : ResourceStoreData :=
  { resource := articleCurrent, persistedResource := some articlePersisted }

/-- A store snapshot containing exactly one entry, `article`/`1`. -/
def sampleSnapshot : NgrxJsonApiStore :=
  { data := [("article", [("1", sampleEntry)])] }

/-- Identifier present in `sampleSnapshot`. -/
def knownIdentifier : ResourceIdentifier := { type := "article", id := "1" }

/-- Identifier absent from `sampleSnapshot`. -/
def unknownIdentifier : ResourceIdentifier := { type := "article", id := "2" }

/-- A query as a consumer would build it for `findOne`. -/
def sampleQueryOne : ResourceQuery := { queryId := "q1", queryType := "getOne" }

/-- A query carrying the wrong `queryType` for `findOne`. -/
def mismatchedQuery : ResourceQuery := { queryId := "qMis", queryType := "getMany" }

/-! ## Claim theorems -/

/-- C1: For every findOne query, the delivered result is determined by the
match count: the handle's result mapping is `findOneMapEmission`; a
single-match emission delivers that resource; a zero-match emission delivers
the `null` sentinel (not a resource); a more-than-one-match emission fails
with `AmbiguousResultError` and never silently picks a resource. -/
theorem findOne_result_determined_by_match_count
    (q : ResourceQuery) (it : List Resource) :
    (NgrxJsonApiServiceV2.findOne q).deliver it =
      NgrxJsonApiServiceV2.findOneMapEmission it ∧
    (∀ r : Resource, it = [r] →
      (NgrxJsonApiServiceV2.findOne q).deliver it = Except.ok (some r)) ∧
    (it.length = 0 →
      (NgrxJsonApiServiceV2.findOne q).deliver it = Except.ok none) ∧
    (1 < it.length →
      (NgrxJsonApiServiceV2.findOne q).deliver it =
        Except.error AmbiguousResultError) := by
  refine ⟨rfl, ?_, ?_, ?_⟩
  · intro r h
    subst h
    simp [NgrxJsonApiServiceV2.findOne, NgrxJsonApiServiceV2.findOneMapEmission]
  · intro h
    have h0 : it = [] := List.length_eq_zero.mp h
    subst h0
    simp [NgrxJsonApiServiceV2.findOne, NgrxJsonApiServiceV2.findOneMapEmission]
  · intro h
    have h0 : it.length ≠ 0 := by omega
    have h1 : it.length ≠ 1 := by omega
    simp [NgrxJsonApiServiceV2.findOne, NgrxJsonApiServiceV2.findOneMapEmission,
      h0, h1, AmbiguousResultError]

/-- Witness for C1 at concrete emissions: one match delivers the resource,
zero matches deliver the sentinel, two matches fail. -/
theorem findOne_result_determined_by_match_count_witness :
    (NgrxJsonApiServiceV2.findOne sampleQueryOne).deliver [articleCurrent] =
      Except.ok (some articleCurrent) ∧
    (NgrxJsonApiServiceV2.findOne sampleQueryOne).deliver [] = Except.ok none ∧
    (NgrxJsonApiServiceV2.findOne sampleQueryOne).deliver [articleCurrent, articleTwo] =
      Except.error AmbiguousResultError :=
  ⟨(findOne_result_determined_by_match_count sampleQueryOne [articleCurrent]).2.1
      articleCurrent rfl,
   (findOne_result_determined_by_match_count sampleQueryOne []).2.2.1 rfl,
   (findOne_result_determined_by_match_count sampleQueryOne
      [articleCurrent, articleTwo]).2.2.2 (by decide)⟩

/-- C2 counterexample: `findOne` does not assert the supplied `queryType`.
A query whose `queryType` is `"getMany"` is accepted by `findOne`: the read
intent is dispatched as usual, with the `queryType` silently overwritten;
symmetrically for `findMany` on a `"getOne"` query. No assertion violation
occurs. -/
theorem find_no_queryType_assert_counterexample :
    mismatchedQuery.queryType ≠ "getOne" ∧
    (NgrxJsonApiServiceV2.findOne mismatchedQuery).dispatched =
      [Action.apiReadInit
        { query := some { mismatchedQuery with queryType := "getOne" } }] ∧
    sampleQueryOne.queryType ≠ "getMany" ∧
    (NgrxJsonApiServiceV2.findMany sampleQueryOne).dispatched =
      [Action.apiReadInit
        { query := some { sampleQueryOne with queryType := "getMany" } }] :=
  ⟨by decide, rfl, by decide, rfl⟩

/-- C2 amended: findOne and findMany do not assert the supplied queryType;
each overwrites the query's queryType field (to getOne and getMany
respectively) and registers the query regardless of the queryType the
caller supplied, dispatching the read intent for the overwritten query. -/
theorem find_overwrites_queryType_instead_of_asserting (q : ResourceQuery) :
    (NgrxJsonApiServiceV2.findOne q).registeredQuery.queryType = "getOne" ∧
    (NgrxJsonApiServiceV2.findOne q).dispatched =
      NgrxJsonApiServiceV2.findInternal
        (NgrxJsonApiServiceV2.findOne q).registeredQuery ∧
    (NgrxJsonApiServiceV2.findMany q).registeredQuery.queryType = "getMany" ∧
    (NgrxJsonApiServiceV2.findMany q).dispatched =
      NgrxJsonApiServiceV2.findInternal
        (NgrxJsonApiServiceV2.findMany q).registeredQuery :=
  ⟨rfl, rfl, rfl, rfl⟩

/-- C3: `getResourceSnapshot` is total (a pure function into `Option`, it
never throws): when the identifier's type and id are present in the store
snapshot it returns the entry's current resource, otherwise it returns the
`null` sentinel. -/
theorem getResourceSnapshot_total
    (snapshot : NgrxJsonApiStore) (identifier : ResourceIdentifier) :
    (∀ entry : ResourceStoreData,
      NgrxJsonApiServiceV2.lookupEntry snapshot identifier = some entry →
      NgrxJsonApiServiceV2.getResourceSnapshot snapshot identifier =
        some entry.resource) ∧
    (NgrxJsonApiServiceV2.lookupEntry snapshot identifier = none →
      NgrxJsonApiServiceV2.getResourceSnapshot snapshot identifier = none) := by
  constructor
  · intro entry h
    simp [NgrxJsonApiServiceV2.getResourceSnapshot, h]
  · intro h
    simp [NgrxJsonApiServiceV2.getResourceSnapshot, h]

/-- Witness for C3: on the sample snapshot, the known identifier yields its
current resource and the unknown identifier yields the sentinel. -/
theorem getResourceSnapshot_total_witness :
    NgrxJsonApiServiceV2.getResourceSnapshot sampleSnapshot knownIdentifier =
      some articleCurrent ∧
    NgrxJsonApiServiceV2.getResourceSnapshot sampleSnapshot unknownIdentifier =
      none :=
  ⟨(getResourceSnapshot_total sampleSnapshot knownIdentifier).1 sampleEntry
      (by decide),
   (getResourceSnapshot_total sampleSnapshot unknownIdentifier).2 (by decide)⟩

/-- C4: `getPersistedResourceSnapshot` returns the entry's persisted state
when the identifier is known to the store and the `null` sentinel when it is
unknown; when an uncommitted local edit has made `resource` differ from
`persistedResource`, it still returns the persisted state, not the current
one. -/
theorem getPersistedResourceSnapshot_returns_persisted
    (snapshot : NgrxJsonApiStore) (identifier : ResourceIdentifier) :
    (∀ entry : ResourceStoreData,
      NgrxJsonApiServiceV2.lookupEntry snapshot identifier = some entry →
      NgrxJsonApiServiceV2.getPersistedResourceSnapshot snapshot identifier =
        entry.persistedResource) ∧
    (NgrxJsonApiServiceV2.lookupEntry snapshot identifier = none →
      NgrxJsonApiServiceV2.getPersistedResourceSnapshot snapshot identifier =
        none) ∧
    (∀ entry : ResourceStoreData,
      NgrxJsonApiServiceV2.lookupEntry snapshot identifier = some entry →
      some entry.resource ≠ entry.persistedResource →
      NgrxJsonApiServiceV2.getPersistedResourceSnapshot snapshot identifier ≠
        NgrxJsonApiServiceV2.getResourceSnapshot snapshot identifier) := by
  refine ⟨?_, ?_, ?_⟩
  · intro entry h
    simp [NgrxJsonApiServiceV2.getPersistedResourceSnapshot, h]
  · intro h
    simp [NgrxJsonApiServiceV2.getPersistedResourceSnapshot, h]
  · intro entry h hne
    simp [NgrxJsonApiServiceV2.getPersistedResourceSnapshot,
      NgrxJsonApiServiceV2.getResourceSnapshot, h]
    exact fun he => hne he.symm

/-- Witness for C4: on the sample snapshot, whose entry has a local edit
(`resource ≠ persistedResource`), the persisted snapshot getter returns the
persisted state; the unknown identifier yields the sentinel; and the
persisted snapshot differs from the current snapshot. -/
theorem getPersistedResourceSnapshot_returns_persisted_witness :
    NgrxJsonApiServiceV2.getPersistedResourceSnapshot sampleSnapshot
      knownIdentifier = some articlePersisted ∧
    NgrxJsonApiServiceV2.getPersistedResourceSnapshot sampleSnapshot
      unknownIdentifier = none ∧
    NgrxJsonApiServiceV2.getPersistedResourceSnapshot sampleSnapshot
      knownIdentifier ≠
      NgrxJsonApiServiceV2.getResourceSnapshot sampleSnapshot knownIdentifier :=
  ⟨(getPersistedResourceSnapshot_returns_persisted sampleSnapshot
      knownIdentifier).1 sampleEntry (by decide),
   (getPersistedResourceSnapshot_returns_persisted sampleSnapshot
      unknownIdentifier).2.1 (by decide),
   (getPersistedResourceSnapshot_returns_persisted sampleSnapshot
      knownIdentifier).2.2 sampleEntry (by decide) (by decide)⟩

/-- C5: unsubscribing the handle returned by `findOne`/`findMany` dispatches
exactly `RemoveQueryAction` on that query's id; removal from the query
registry is idempotent (removing an already-removed id is a no-op); and no
delivery targets the removed query id afterwards. -/
theorem removeQuery_idempotent_no_delivery
    (q : ResourceQuery) (queries : QueryRegistry) :
    (NgrxJsonApiServiceV2.findOne q).unsubscribeActions =
      [Action.removeQuery q.queryId] ∧
    (NgrxJsonApiServiceV2.findMany q).unsubscribeActions =
      [Action.removeQuery q.queryId] ∧
    removeQueryFromRegistry (removeQueryFromRegistry queries q.queryId)
        q.queryId =
      removeQueryFromRegistry queries q.queryId ∧
    deliversTo (removeQueryFromRegistry queries q.queryId) q.queryId = false := by
  refine ⟨rfl, rfl, assocRemove_idem queries q.queryId, ?_⟩
  simp [deliversTo, removeQueryFromRegistry, assocLookup_assocRemove_self]

/-- C6: `patchResource`, `postResource` and `deleteResource` each dispatch
exactly the corresponding single store-level staging action and dispatch no
remote-API intent. -/
theorem stage_local_edits_dispatch_no_remote_intent
    (resource : Resource) (identifier : ResourceIdentifier) :
    NgrxJsonApiServiceV2.patchResource resource =
      [Action.patchStoreResource resource] ∧
    NgrxJsonApiServiceV2.postResource resource =
      [Action.postStoreResource resource] ∧
    NgrxJsonApiServiceV2.deleteResource identifier =
      [Action.deleteStoreResource identifier] ∧
    (NgrxJsonApiServiceV2.patchResource resource).all
      (fun a => !(isRemoteIntent a)) = true ∧
    (NgrxJsonApiServiceV2.postResource resource).all
      (fun a => !(isRemoteIntent a)) = true ∧
    (NgrxJsonApiServiceV2.deleteResource identifier).all
      (fun a => !(isRemoteIntent a)) = true :=
  ⟨rfl, rfl, rfl, rfl, rfl, rfl⟩

/-- C7: the V1 commands `create`, `read`, `update`, `delete` each dispatch
exactly one corresponding `Api...InitAction` carrying the given payload and
dispatch no cache-mutating action themselves. -/
theorem crud_forwarded_as_single_intent (payload : Payload) :
    NgrxJsonApiService.create payload = [Action.apiCreateInit payload] ∧
    NgrxJsonApiService.read payload = [Action.apiReadInit payload] ∧
    NgrxJsonApiService.update payload = [Action.apiUpdateInit payload] ∧
    NgrxJsonApiService.delete payload = [Action.apiDeleteInit payload] ∧
    (NgrxJsonApiService.create payload).all
      (fun a => !(isStoreMutation a)) = true ∧
    (NgrxJsonApiService.read payload).all
      (fun a => !(isStoreMutation a)) = true ∧
    (NgrxJsonApiService.update payload).all
      (fun a => !(isStoreMutation a)) = true ∧
    (NgrxJsonApiService.delete payload).all
      (fun a => !(isStoreMutation a)) = true :=
  ⟨rfl, rfl, rfl, rfl, rfl, rfl, rfl, rfl⟩

/-- C10: `findOne` and `findMany` mutate the caller's query in place: the
registered query is exactly the caller's query with `queryType` overwritten
(to `"getOne"` / `"getMany"`), every other field (queryId, type, id, params)
unchanged, and the read intent dispatched carries that overwritten query. -/
theorem find_mutates_only_queryType (q : ResourceQuery) :
    (NgrxJsonApiServiceV2.findOne q).registeredQuery =
      { q with queryType := "getOne" } ∧
    (NgrxJsonApiServiceV2.findMany q).registeredQuery =
      { q with queryType := "getMany" } ∧
    (NgrxJsonApiServiceV2.findOne q).registeredQuery.queryId = q.queryId ∧
    (NgrxJsonApiServiceV2.findOne q).registeredQuery.type = q.type ∧
    (NgrxJsonApiServiceV2.findOne q).registeredQuery.id = q.id ∧
    (NgrxJsonApiServiceV2.findOne q).registeredQuery.params = q.params ∧
    (NgrxJsonApiServiceV2.findMany q).registeredQuery.queryId = q.queryId ∧
    (NgrxJsonApiServiceV2.findMany q).registeredQuery.type = q.type ∧
    (NgrxJsonApiServiceV2.findMany q).registeredQuery.id = q.id ∧
    (NgrxJsonApiServiceV2.findMany q).registeredQuery.params = q.params ∧
    (NgrxJsonApiServiceV2.findOne q).dispatched =
      [Action.apiReadInit { query := some { q with queryType := "getOne" } }] ∧
    (NgrxJsonApiServiceV2.findMany q).dispatched =
      [Action.apiReadInit { query := some { q with queryType := "getMany" } }] :=
  ⟨rfl, rfl, rfl, rfl, rfl, rfl, rfl, rfl, rfl, rfl, rfl, rfl⟩

/-! ## C8: upsertPersisted keeps current = persisted absent local edits -/

theorem upsertPersisted_pending_eq (s : ModResourceStore) (r : Resource) :
    (upsertPersisted s r).pending = s.pending := rfl

theorem upsertPersisted_entries_eq (s : ModResourceStore) (r : Resource) :
    ∃ e : ResourceStoreData, (upsertPersisted s r).entries =
      (resourceIdentifierOf r, e) ::
        assocRemove s.entries (resourceIdentifierOf r) :=
  ⟨_, rfl⟩

theorem upsertPersisted_preserves_agreement
    (s : ModResourceStore) (r : Resource) (key : ResourceIdentifier)
    (hp : assocLookup s.pending key = none)
    (h : modGet s key = modGetPersisted s key) :
    modGet (upsertPersisted s r) key =
      modGetPersisted (upsertPersisted s r) key := by
  by_cases hk : resourceIdentifierOf r = key
  · subst hk
    rcases hcase : assocLookup s.entries (resourceIdentifierOf r) with _ | entry <;>
      simp [upsertPersisted, modGet, modGetPersisted, assocLookup, hcase, hp]
  · obtain ⟨e, he⟩ := upsertPersisted_entries_eq s r
    have hent : assocLookup (upsertPersisted s r).entries key =
        assocLookup s.entries key := by
      rw [he, assocLookup, if_neg hk]
      exact assocLookup_assocRemove_ne s.entries (resourceIdentifierOf r) key
        fun heq => hk heq.symm
    unfold modGet modGetPersisted at h ⊢
    rw [hent]
    exact h

/-- C8: for an identifier with no pending local edit for which current and
persisted agree, any sequence of `upsertPersisted` calls (no intervening
local edits) keeps `get` and `getPersisted` equal at that identifier. -/
theorem upsertPersisted_keeps_current_eq_persisted
    (s : ModResourceStore) (rs : List Resource) (key : ResourceIdentifier)
    (hp : assocLookup s.pending key = none)
    (h : modGet s key = modGetPersisted s key) :
    modGet (rs.foldl upsertPersisted s) key =
      modGetPersisted (rs.foldl upsertPersisted s) key := by
  induction rs generalizing s with
  | nil => exact h
  | cons r rest ih =>
    simp only [List.foldl_cons]
    exact ih (upsertPersisted s r)
      (by rw [upsertPersisted_pending_eq]; exact hp)
      (upsertPersisted_preserves_agreement s r key hp h)

/-- The ResourceStore before any fetch or edit. -/
def emptyModStore : ModResourceStore := {}

/-- Witness for C8: from the empty store, upserting two persisted resources
leaves `get` and `getPersisted` equal at the key both upserts and lookups
use. -/
theorem upsertPersisted_keeps_current_eq_persisted_witness :
    assocLookup emptyModStore.pending knownIdentifier = none ∧
    modGet emptyModStore knownIdentifier =
      modGetPersisted emptyModStore knownIdentifier ∧
    modGet ([articlePersisted, articleTwo].foldl upsertPersisted emptyModStore)
        knownIdentifier =
      modGetPersisted
        ([articlePersisted, articleTwo].foldl upsertPersisted emptyModStore)
        knownIdentifier :=
  ⟨rfl, rfl,
   upsertPersisted_keeps_current_eq_persisted emptyModStore
     [articlePersisted, articleTwo] knownIdentifier rfl rfl⟩

/-! ## C9: pending-change tracker merge/supersede rules -/

/-- C9: the pending-change tracker keeps at most one record per identifier
(all three staging operations preserve key distinctness); a later Patch
merges into an existing pending Create or Patch for the same identifier; a
Delete supersedes a prior Patch with a Delete record; and a Delete of a
pending (not-yet-persisted) Create removes the identifier from the tracker
entirely, so no delete request is queued for it. -/
theorem pendingTracker_at_most_one_and_merge_rules
    (t : PendingChangeTracker) (key : ResourceIdentifier) (r : Resource)
    (attrs : List (String × String))
    (rels : List (String × List ResourceIdentifier)) :
    (atMostOnePerIdentifier t →
      atMostOnePerIdentifier (stageCreate t r) ∧
      atMostOnePerIdentifier (stagePatch t key attrs rels) ∧
      atMostOnePerIdentifier (stageDelete t key)) ∧
    (assocLookup t key = some (PendingChangeRecord.create r) →
      assocLookup (stagePatch t key attrs rels) key =
        some (PendingChangeRecord.create (applyPatchToResource r attrs rels))) ∧
    (∀ (attrs0 : List (String × String))
       (rels0 : List (String × List ResourceIdentifier)),
      assocLookup t key = some (PendingChangeRecord.patch key attrs0 rels0) →
      assocLookup (stagePatch t key attrs rels) key =
        some (PendingChangeRecord.patch key (mergeFields attrs0 attrs)
          (mergeFields rels0 rels))) ∧
    (∀ (attrs0 : List (String × String))
       (rels0 : List (String × List ResourceIdentifier)),
      assocLookup t key = some (PendingChangeRecord.patch key attrs0 rels0) →
      assocLookup (stageDelete t key) key =
        some (PendingChangeRecord.delete key)) ∧
    (assocLookup t key = some (PendingChangeRecord.create r) →
      stageDelete t key = assocRemove t key ∧
      key ∉ ((stageDelete t key).map Prod.fst)) := by
  refine ⟨?_, ?_, ?_, ?_, ?_⟩
  · intro hinv
    refine ⟨?_, ?_, ?_⟩
    · simp only [stageCreate, atMostOnePerIdentifier, List.map_cons,
        List.nodup_cons]
      exact ⟨notMem_keys_assocRemove t _, nodup_keys_assocRemove t _ hinv⟩
    · rcases hcase : assocLookup t key with _ | rec
      · simp only [stagePatch, hcase, atMostOnePerIdentifier, List.map_cons,
          List.nodup_cons]
        exact ⟨notMem_keys_of_assocLookup_none t key hcase, hinv⟩
      · rcases rec with r0 | ⟨id0, a0, rl0⟩ | id0
        · simp only [stagePatch, hcase, atMostOnePerIdentifier, List.map_cons,
            List.nodup_cons]
          exact ⟨notMem_keys_assocRemove t key, nodup_keys_assocRemove t key hinv⟩
        · simp only [stagePatch, hcase, atMostOnePerIdentifier, List.map_cons,
            List.nodup_cons]
          exact ⟨notMem_keys_assocRemove t key, nodup_keys_assocRemove t key hinv⟩
        · simp only [stagePatch, hcase]
          exact hinv
    · rcases hcase : assocLookup t key with _ | rec
      · simp only [stageDelete, hcase, atMostOnePerIdentifier, List.map_cons,
          List.nodup_cons]
        exact ⟨notMem_keys_of_assocLookup_none t key hcase, hinv⟩
      · rcases rec with r0 | ⟨id0, a0, rl0⟩ | id0
        · simp only [stageDelete, hcase]
          exact nodup_keys_assocRemove t key hinv
        · simp only [stageDelete, hcase, atMostOnePerIdentifier, List.map_cons,
            List.nodup_cons]
          exact ⟨notMem_keys_assocRemove t key, nodup_keys_assocRemove t key hinv⟩
        · simp only [stageDelete, hcase, atMostOnePerIdentifier, List.map_cons,
            List.nodup_cons]
          exact ⟨notMem_keys_assocRemove t key, nodup_keys_assocRemove t key hinv⟩
  · intro hcase
    simp [stagePatch, hcase, assocLookup]
  · intro attrs0 rels0 hcase
    simp [stagePatch, hcase, assocLookup]
  · intro attrs0 rels0 hcase
    simp [stageDelete, hcase, assocLookup]
  · intro hcase
    refine ⟨by simp [stageDelete, hcase], ?_⟩
    simp only [stageDelete, hcase]
    exact notMem_keys_assocRemove t key

/-- A locally created resource the server has never seen. -/
def draftResource : Resource :=
  { type := "article", id := "tmp", attributes := [("title", "draft")] }

/-- Identifier of `draftResource`. -/
def draftKey : ResourceIdentifier := { type := "article", id := "tmp" }

/-- Tracker holding the pending Create of `draftResource`. -/
def draftTracker : PendingChangeTracker := stageCreate [] draftResource

/-- Tracker holding a pending Patch for `draftKey`. -/
def patchTracker : PendingChangeTracker :=
  [(draftKey, PendingChangeRecord.patch draftKey [("title", "first")] [])]

/-- Attributes of a later patch. -/
def patchAttrs : List (String × String) := [("title", "edited")]

/-- Witness for C9 at concrete trackers: staging over a pending Create keeps
one record per key; a Patch after the Create merges into the Create; a Patch
after a Patch merges the fields; a Delete after a Patch leaves a Delete
record; a Delete after the Create removes the identifier entirely. -/
theorem pendingTracker_at_most_one_and_merge_rules_witness :
    (atMostOnePerIdentifier (stageCreate draftTracker draftResource) ∧
     atMostOnePerIdentifier (stagePatch draftTracker draftKey patchAttrs []) ∧
     atMostOnePerIdentifier (stageDelete draftTracker draftKey)) ∧
    assocLookup (stagePatch draftTracker draftKey patchAttrs []) draftKey =
      some (PendingChangeRecord.create
        (applyPatchToResource draftResource patchAttrs [])) ∧
    assocLookup (stagePatch patchTracker draftKey patchAttrs []) draftKey =
      some (PendingChangeRecord.patch draftKey
        (mergeFields [("title", "first")] patchAttrs) (mergeFields [] [])) ∧
    assocLookup (stageDelete patchTracker draftKey) draftKey =
      some (PendingChangeRecord.delete draftKey) ∧
    (stageDelete draftTracker draftKey = assocRemove draftTracker draftKey ∧
     draftKey ∉ ((stageDelete draftTracker draftKey).map Prod.fst)) :=
  ⟨(pendingTracker_at_most_one_and_merge_rules draftTracker draftKey
      draftResource patchAttrs []).1 (by decide),
   (pendingTracker_at_most_one_and_merge_rules draftTracker draftKey
      draftResource patchAttrs []).2.1 (by decide),
   (pendingTracker_at_most_one_and_merge_rules patchTracker draftKey
      draftResource patchAttrs []).2.2.1 [("title", "first")] [] (by decide),
   (pendingTracker_at_most_one_and_merge_rules patchTracker draftKey
      draftResource patchAttrs []).2.2.2.1 [("title", "first")] [] (by decide),
   (pendingTracker_at_most_one_and_merge_rules draftTracker draftKey
      draftResource patchAttrs []).2.2.2.2 (by decide)⟩

end NgrxJsonApi
